import Mathlib

/-!
# Verification of `centerline/converters.py`

A shallow embedding of the conversion pipeline of the `centerline`
repository (`src/centerline/converters.py`) together with theorems
settling the specification claims about it.

The embedded code consists of two functions:

* `get_ogr_driver` — resolves an OGR output driver from a destination
  path's extension, scanning the driver registry in enumeration order
  and matching via Python's `==` on the canonical `DMD_EXTENSION`
  metadata field or Python's substring operator `in` on the
  `DMD_EXTENSIONS` field (`None` metadata replaced by `""` via `or ""`);
* `create_centerlines` — the conversion orchestrator: it copies the
  source schema with its `geometry` slot overwritten to
  `"MultiLineString"`, resolves the driver, opens the destination once,
  and streams each source record through the external `Centerline`
  algorithm, catching exactly `InvalidInputTypeError` and
  `TooFewRidgesError` per feature (logging a warning and continuing)
  and writing each success with the dict-comprehension-filtered
  properties.

External collaborators (the `Centerline` class and the geometry
encode/decode helpers live outside the embedded file) are modelled from
the spec's collaborator contracts; geometry values and property values
are abstract type parameters `G` and `V`, since the orchestrator only
passes them through.
-/

set_option autoImplicit false

namespace CenterlineSpec

/-! ## Python string and path primitives -/

/-- Python's substring test `needle in hay` on lists of characters:
`needle.isPrefixOf hay || needle in (tail of hay)`; the empty needle is
a substring of everything. -/
def listInfix : List Char → List Char → Bool
  | needle, [] => needle.isEmpty
  | needle, h :: t => needle.isPrefixOf (h :: t) || listInfix needle t

/-- Python's `needle in hay` for strings. -/
def strContains (hay needle : String) : Bool :=
  listInfix needle.data hay.data

/-- Python's `str.rfind` on a character list: the highest index at which
`c` occurs, or `-1` when it does not occur. -/
def rfindChar : List Char → Char → Int
  | [], _ => -1
  | a :: as, c =>
    let r := rfindChar as c
    if r ≥ 0 then r + 1
    else if a == c then 0 else -1

/-- `os.path.splitext` (posixpath): split `p` at the last `.` of its
basename, unless every character of the basename before that dot is
itself a dot (leading dots never start an extension). Returns
`(root, extension-including-dot)`. -/
def splitext (p : String) : String × String :=
  let l := p.data
  let sepIndex : Int := rfindChar l '/'
  let dotIndex : Int := rfindChar l '.'
  if dotIndex > sepIndex &&
      (List.range l.length).any (fun i =>
        decide (sepIndex < (i : Int)) && decide ((i : Int) < dotIndex) &&
          (l.getD i '.' != '.')) then
    (String.mk (l.take dotIndex.toNat), String.mk (l.drop dotIndex.toNat))
  else
    (p, "")

/-- `EXTENSION` as computed by `get_ogr_driver`:
`os.path.splitext(filepath)[1][1:]`, the extension with its leading dot
stripped, case preserved. -/
def pathExtension (filepath : String) : String :=
  ((splitext filepath).2).drop 1

/-! ## Error model

The exception classes that reach the embedded file: the two
`centerline.exceptions` classes it imports and catches, and Python's
`TypeError` raised by keyword expansion at the `Centerline(...)` call
site when `attributes` contains a key that collides with an explicit
keyword argument. -/

inductive PyError where
  | invalidInputType (msg : String)
  | tooFewRidges (msg : String)
  | typeError (msg : String)
  deriving DecidableEq, Repr

/-! ## Driver registry -/

/-- An OGR driver as observed by `get_ogr_driver`: its name
(`GetName()`) and the two metadata fields it reads
(`GetMetadataItem("DMD_EXTENSION")` / `GetMetadataItem("DMD_EXTENSIONS")`,
each possibly absent). -/
structure Driver where
  name : String
  dmdExtension : Option String
  dmdExtensions : Option String
  deriving DecidableEq, Repr

/-- The match test of the loop body of `get_ogr_driver`:
`EXTENSION == driver_extension or EXTENSION in driver_extensions`,
where a missing metadata field was replaced by `""` via `or ""`. -/
def driverMatches (EXTENSION : String) (d : Driver) : Bool :=
  let driver_extension := d.dmdExtension.getD ""
  let driver_extensions := d.dmdExtensions.getD ""
  EXTENSION == driver_extension || strContains driver_extensions EXTENSION

/-- `get_ogr_driver(filepath)`: scan the registry in enumeration order
and return the first driver matching the path's stripped extension; when
the loop exhausts the registry, raise `InvalidInputTypeError` with the
message naming the rejected extension (source lines 108–124). -/
def get_ogr_driver (registry : List Driver) (filepath : String) :
    Except PyError Driver :=
  let EXTENSION := pathExtension filepath
  match registry.find? (driverMatches EXTENSION) with
  | some driver => .ok driver
  | none =>
    .error (.invalidInputType
      ("No driver found for the following file extension: " ++ EXTENSION))

/-! ## Conversion orchestrator

`G` is the type of geometry values and `V` the type of attribute values;
the orchestrator only passes both through, so they stay abstract. The
geometry decode (`shape`) and encode (`mapping`) collaborators are
identity pass-throughs at this level of abstraction. -/

/-- A fiona schema as read and written by `create_centerlines`: the
`geometry` type slot, and the `properties` mapping of attribute names to
attribute types in insertion order. -/
structure FionaSchema where
  geometry : String
  properties : List (String × String)
  deriving DecidableEq, Repr

/-- `schema = source_file.schema.copy(); schema.update({"geometry":
"MultiLineString"})` (source lines 54–55): only the `geometry` key is
written. -/
def derive_schema (s : FionaSchema) : FionaSchema :=
  { s with geometry := "MultiLineString" }

/-- One source record: `record.get("geometry")` and
`record.get("properties")` (the properties dict in insertion order). -/
structure Record (G V : Type) where
  geometry : G
  properties : List (String × V)
  deriving DecidableEq, Repr

/-- An output record as passed to `destination_file.write`. -/
structure OutRecord (G V : Type) where
  geometry : G
  properties : List (String × V)
  deriving DecidableEq, Repr

/-- The source dataset as observed by the orchestrator: its schema, its
coordinate reference system, its text encoding (both opaque here), and
its ordered records. -/
structure SourceDataset (G V : Type) where
  schema : FionaSchema
  crs : String
  encoding : String
  records : List (Record G V)

/-- The configuration `fiona.open(dst, mode="w", ...)` is given (source
lines 57–64). -/
structure DestConfig where
  driver : String
  schema : FionaSchema
  crs : String
  encoding : String
  deriving DecidableEq, Repr

/-- Modelled from the spec: the failure contract of the external
`Centerline` algorithm (`centerline.geometry`, not part of the embedded
file) — it fails with `InvalidInputTypeError` when the geometry is not a
polygon/multipolygon, or with `TooFewRidgesError` when the interpolation
distance yields too few ridges. -/
inductive CLFail where
  | invalidInputType (msg : String)
  | tooFewRidges (msg : String)
  deriving DecidableEq, Repr

def CLFail.toPyError : CLFail → PyError
  | .invalidInputType m => .invalidInputType m
  | .tooFewRidges m => .tooFewRidges m

/-- Modelled from the spec: a successful `Centerline` object — its
linear geometry (as later encoded by `mapping`) and its `__dict__`, the
instance attributes in insertion order (per the contract it republishes
the attributes it was given and may add computed ones; we keep it fully
abstract). -/
structure CenterlineObj (G V : Type) where
  geom : G
  dict : List (String × V)
  deriving DecidableEq, Repr

/-- Modelled from the spec: the external centerline algorithm
collaborator, `compute(geometry, interpolation_distance,
**named_attributes)`, which either returns a `CenterlineObj` or fails
with one of the two documented error kinds. -/
def CLAlgo (G V : Type) : Type :=
  G → Rat → List (String × V) → Except CLFail (CenterlineObj G V)

/-- The first properties key that collides with an explicit keyword
argument of the `Centerline(input_geom=..., interpolation_dist=...,
**attributes)` call. -/
def kwargCollision {V : Type} (attributes : List (String × V)) : Option String :=
  (attributes.map Prod.fst).find?
    (fun k => k == "input_geom" || k == "interpolation_dist")

/-- The call `Centerline(input_geom=input_geom,
interpolation_dist=density, **attributes)` (source lines 71–75):
Python's keyword expansion raises `TypeError` when `attributes` holds a
key named `input_geom` or `interpolation_dist`; otherwise the external
algorithm runs under its spec contract. -/
def callCenterline {G V : Type} (algo : CLAlgo G V) (input_geom : G)
    (density : Rat) (attributes : List (String × V)) :
    Except PyError (CenterlineObj G V) :=
  match kwargCollision attributes with
  | some k =>
    .error (.typeError ("got multiple values for keyword argument " ++ k))
  | none =>
    match algo input_geom density attributes with
    | .ok c => .ok c
    | .error e => .error e.toPyError

/-- One iteration of the conversion loop up to the record that would be
written (source lines 65–87): decode the geometry, call the algorithm,
and on success build `centerline_dict` whose properties are
`{k: v for k, v in centerline_obj.__dict__.items() if k in
attributes.keys()}`. -/
def processRecord {G V : Type} (algo : CLAlgo G V) (density : Rat)
    (record : Record G V) : Except PyError (OutRecord G V) :=
  let input_geom := record.geometry
  let attributes := record.properties
  match callCenterline algo input_geom density attributes with
  | .error e => .error e
  | .ok centerline_obj =>
    .ok { geometry := centerline_obj.geom,
          properties := centerline_obj.dict.filter
            (fun kv => (attributes.map Prod.fst).contains kv.1) }

/-- The observable outcome of the `for record in source_file` loop:
the records written to the destination in order, the warnings logged by
`logging.warning` in order, and the exception (if any) that escaped the
loop and aborted the run. -/
structure LoopOut (G V : Type) where
  written : List (OutRecord G V)
  warnings : List PyError
  aborted : Option PyError
  deriving DecidableEq, Repr

/-- The conversion loop (source lines 65–89): each record is processed
in source order; `InvalidInputTypeError` and `TooFewRidgesError` are
caught, logged as warnings, and the loop continues; any other exception
escapes, ending the loop (records written so far stay written). -/
def convertLoop {G V : Type} (algo : CLAlgo G V) (density : Rat) :
    List (Record G V) → LoopOut G V
  | [] => ⟨[], [], none⟩
  | record :: rest =>
    match processRecord algo density record with
    | .ok out =>
      let r := convertLoop algo density rest
      ⟨out :: r.written, r.warnings, r.aborted⟩
    | .error (.invalidInputType m) =>
      let r := convertLoop algo density rest
      ⟨r.written, .invalidInputType m :: r.warnings, r.aborted⟩
    | .error (.tooFewRidges m) =>
      let r := convertLoop algo density rest
      ⟨r.written, .tooFewRidges m :: r.warnings, r.aborted⟩
    | .error (.typeError m) => ⟨[], [], some (.typeError m)⟩

/-- The observable outcome of one `create_centerlines` run: the
destination dataset (its open configuration and written records) when it
was opened at all, the warnings logged, and the exception (if any) that
aborted the run. -/
structure RunTrace (G V : Type) where
  dest : Option (DestConfig × List (OutRecord G V))
  warnings : List PyError
  error : Option PyError
  deriving DecidableEq, Repr

/-- `create_centerlines(src, dst, density)` (source lines 52–91): derive
the schema, resolve the driver (before the destination is opened — on
resolution failure the run aborts with the destination never created),
open the destination once with the derived schema, the resolved driver's
name, and the source's crs and encoding copied verbatim, then run the
conversion loop. -/
def create_centerlines {G V : Type} (registry : List Driver)
    (algo : CLAlgo G V) (source_file : SourceDataset G V) (dst : String)
    (density : Rat) : RunTrace G V :=
  let schema := derive_schema source_file.schema
  match get_ogr_driver registry dst with
  | .error e => ⟨none, [], some e⟩
  | .ok driver =>
    let out := convertLoop algo density source_file.records
    ⟨some ({ driver := driver.name, schema := schema,
             crs := source_file.crs, encoding := source_file.encoding },
           out.written),
     out.warnings, out.aborted⟩

/-! ## Helper lemmas -/

theorem listInfix_nil (l : List Char) : listInfix [] l = true := by
  cases l <;> simp [listInfix, List.isPrefixOf, List.isEmpty]

theorem strContains_empty (s : String) : strContains s "" = true :=
  listInfix_nil s.data

theorem driverMatches_empty (d : Driver) : driverMatches "" d = true := by
  simp [driverMatches, strContains_empty]

theorem find?_first_of_prefix_false {α : Type} (p : α → Bool)
    (l₁ l₂ : List α) (d : α) (h₁ : ∀ x ∈ l₁, p x = false) (hd : p d = true) :
    (l₁ ++ d :: l₂).find? p = some d := by
  induction l₁ with
  | nil => simp [List.find?, hd]
  | cons a as ih =>
    have ha := h₁ a (by simp)
    simpa [List.find?, ha] using ih (fun x hx => h₁ x (by simp [hx]))

theorem map_fst_filter_fst {α β : Type} (l : List (α × β)) (p : α → Bool) :
    (l.filter (fun kv => p kv.1)).map Prod.fst = (l.map Prod.fst).filter p := by
  induction l with
  | nil => rfl
  | cons a as ih => by_cases h : p a.1 <;> simp [List.filter, h, ih]

/-- One step of the conversion loop when the algorithm is reached and
fails: the error becomes a warning and processing continues. -/
theorem convertLoop_skip_step {G V : Type} (algo : CLAlgo G V)
    (density : Rat) (record : Record G V) (rest : List (Record G V))
    (e : CLFail) (hnc : kwargCollision record.properties = none)
    (hfail : algo record.geometry density record.properties = .error e) :
    convertLoop algo density (record :: rest) =
      { written := (convertLoop algo density rest).written,
        warnings := e.toPyError :: (convertLoop algo density rest).warnings,
        aborted := (convertLoop algo density rest).aborted } := by
  cases e <;>
    simp [convertLoop, processRecord, callCenterline, hnc, hfail, CLFail.toPyError]

/-- When no record's properties collide with the call's explicit keyword
arguments, the loop is a single in-order pass: successes are written in
source order, failures are logged in source order, and nothing escapes
the loop. -/
theorem convertLoop_characterization {G V : Type} (algo : CLAlgo G V)
    (density : Rat) (records : List (Record G V))
    (h : ∀ r ∈ records, kwargCollision r.properties = none) :
    convertLoop algo density records =
      { written := records.filterMap
          (fun r => (processRecord algo density r).toOption),
        warnings := records.filterMap (fun r =>
          match processRecord algo density r with
          | .error e => some e
          | .ok _ => none),
        aborted := none } := by
  induction records with
  | nil => rfl
  | cons r rs ih =>
    have hr := h r (by simp)
    have hrest := ih (fun x hx => h x (by simp [hx]))
    cases halgo : algo r.geometry density r.properties with
    | ok c =>
      simp [convertLoop, processRecord, callCenterline, hr, halgo, hrest,
        Except.toOption]
    | error e =>
      cases e <;>
        simp [convertLoop, processRecord, callCenterline, hr, halgo, hrest,
          CLFail.toPyError, Except.toOption]

/-! ## Claim theorems -/

/-- C1: for every destination path whose extension matches no registered
driver, driver resolution fails with the unsupported-format error
carrying the rejected extension (realized in the code as
`InvalidInputTypeError` with the `"No driver found …"` message), and the
failure happens before the destination dataset is opened: the run trace
shows no destination open, no written record, and no warnings. -/
theorem c1_no_driver_aborts_before_destination_open {G V : Type}
    (registry : List Driver) (algo : CLAlgo G V)
    (source_file : SourceDataset G V) (dst : String) (density : Rat)
    (h : ∀ d ∈ registry, driverMatches (pathExtension dst) d = false) :
    create_centerlines registry algo source_file dst density =
      { dest := none, warnings := [],
        error := some (.invalidInputType
          ("No driver found for the following file extension: "
            ++ pathExtension dst)) } := by
  have hfind : registry.find? (driverMatches (pathExtension dst)) = none :=
    List.find?_eq_none.mpr (fun x hx => by simp [h x hx])
  simp [create_centerlines, get_ogr_driver, hfind]

/-- C1 witness: a one-driver registry whose only driver handles `shp`
rejects the destination `out.xyz` with the destination never opened. -/
theorem c1_witness :
    create_centerlines
      [{ name := "ESRI Shapefile", dmdExtension := some "shp",
         dmdExtensions := some "shp" }]
      (fun (g : Nat) (_ : Rat) (attrs : List (String × Nat)) =>
        Except.ok ⟨g, attrs⟩)
      { schema := { geometry := "Polygon", properties := [("id", "int")] },
        crs := "EPSG:4326", encoding := "utf-8",
        records := [{ geometry := 0, properties := [("id", 1)] }] }
      "out.xyz" 1 =
      { dest := none, warnings := [],
        error := some (.invalidInputType
          ("No driver found for the following file extension: "
            ++ pathExtension "out.xyz")) } :=
  c1_no_driver_aborts_before_destination_open _ _ _ _ _ (by decide)

/-- C2: for every feature converted successfully, the output record's
properties are exactly those key/value pairs of the Centerline object's
`__dict__` whose key also appears in the original feature's properties
(the dict comprehension of source lines 82–86), and the output key list
is literally the intersection — the result's key list filtered by
membership in the original property keys — never a superset. -/
theorem c2_output_properties_are_key_intersection {G V : Type}
    (algo : CLAlgo G V) (density : Rat) (record : Record G V)
    (c : CenterlineObj G V)
    (hok : callCenterline algo record.geometry density record.properties
      = .ok c) :
    processRecord algo density record = .ok
      { geometry := c.geom,
        properties := c.dict.filter
          (fun kv => (record.properties.map Prod.fst).contains kv.1) } ∧
    (c.dict.filter
        (fun kv => (record.properties.map Prod.fst).contains kv.1)).map
        Prod.fst
      = (c.dict.map Prod.fst).filter
          (fun k => (record.properties.map Prod.fst).contains k) := by
  constructor
  · simp [processRecord, hok]
  · exact map_fst_filter_fst _ _

/-- C2 witness: with original properties `id ↦ 5` and a Centerline
object republishing `id ↦ 5` plus a computed attribute `computed ↦ 7`,
only the `id` pair is retained. -/
theorem c2_witness :
    processRecord
      (fun (g : Nat) (_ : Rat) (attrs : List (String × Nat)) =>
        Except.ok ⟨g, ("computed", 7) :: attrs⟩)
      1 { geometry := 0, properties := [("id", 5)] } = .ok
      { geometry := 0,
        properties :=
          (⟨0, [("computed", 7), ("id", 5)]⟩ : CenterlineObj Nat Nat).dict.filter
            (fun kv =>
              (([("id", 5)] : List (String × Nat)).map Prod.fst).contains kv.1) } ∧
    ((⟨0, [("computed", 7), ("id", 5)]⟩ : CenterlineObj Nat Nat).dict.filter
        (fun kv =>
          (([("id", 5)] : List (String × Nat)).map Prod.fst).contains kv.1)).map
        Prod.fst
      = ((⟨0, [("computed", 7), ("id", 5)]⟩ : CenterlineObj Nat Nat).dict.map
          Prod.fst).filter
          (fun k =>
            (([("id", 5)] : List (String × Nat)).map Prod.fst).contains k) :=
  c2_output_properties_are_key_intersection
    (fun (g : Nat) (_ : Rat) (attrs : List (String × Nat)) =>
      Except.ok ⟨g, ("computed", 7) :: attrs⟩)
    1 { geometry := 0, properties := [("id", 5)] }
    ⟨0, [("computed", 7), ("id", 5)]⟩ rfl

/-- C3: whenever the centerline algorithm is reached (no keyword
collision) its only failure kinds are `InvalidInputTypeError` and
`TooFewRidgesError`; each such failure is logged as a warning in source
order, nothing is written for that feature, iteration continues with the
next feature, and the loop never aborts — the two per-feature errors
never escape the conversion loop. -/
theorem c3_per_feature_errors_contained {G V : Type} (algo : CLAlgo G V)
    (density : Rat) (records : List (Record G V))
    (h : ∀ r ∈ records, kwargCollision r.properties = none) :
    (convertLoop algo density records).aborted = none ∧
    (convertLoop algo density records).warnings = records.filterMap
      (fun r =>
        match processRecord algo density r with
        | .error e => some e
        | .ok _ => none) ∧
    (convertLoop algo density records).written = records.filterMap
      (fun r => (processRecord algo density r).toOption) := by
  rw [convertLoop_characterization algo density records h]
  exact ⟨rfl, rfl, rfl⟩

/-- C3 witness: a two-record source where the algorithm rejects the
first record with `TooFewRidgesError` and accepts the second — the error
is logged, only the second record is written, and nothing escapes. -/
theorem c3_witness :
    (convertLoop
      (fun (g : Nat) (_ : Rat) (attrs : List (String × Nat)) =>
        if g = 0 then Except.error (.tooFewRidges "number of produced ridges is too small")
        else Except.ok ⟨g, attrs⟩)
      1 [{ geometry := 0, properties := [("id", 1)] },
         { geometry := 3, properties := [("id", 2)] }]).aborted = none ∧
    (convertLoop
      (fun (g : Nat) (_ : Rat) (attrs : List (String × Nat)) =>
        if g = 0 then Except.error (.tooFewRidges "number of produced ridges is too small")
        else Except.ok ⟨g, attrs⟩)
      1 [{ geometry := 0, properties := [("id", 1)] },
         { geometry := 3, properties := [("id", 2)] }]).warnings =
      [{ geometry := 0, properties := [("id", 1)] },
       { geometry := 3, properties := [("id", 2)] }].filterMap
        (fun r =>
          match processRecord
            (fun (g : Nat) (_ : Rat) (attrs : List (String × Nat)) =>
              if g = 0 then Except.error (.tooFewRidges "number of produced ridges is too small")
              else Except.ok ⟨g, attrs⟩) 1 r with
          | .error e => some e
          | .ok _ => none) ∧
    (convertLoop
      (fun (g : Nat) (_ : Rat) (attrs : List (String × Nat)) =>
        if g = 0 then Except.error (.tooFewRidges "number of produced ridges is too small")
        else Except.ok ⟨g, attrs⟩)
      1 [{ geometry := 0, properties := [("id", 1)] },
         { geometry := 3, properties := [("id", 2)] }]).written =
      [{ geometry := 0, properties := [("id", 1)] },
       { geometry := 3, properties := [("id", 2)] }].filterMap
        (fun r => (processRecord
          (fun (g : Nat) (_ : Rat) (attrs : List (String × Nat)) =>
            if g = 0 then Except.error (.tooFewRidges "number of produced ridges is too small")
            else Except.ok ⟨g, attrs⟩) 1 r).toOption) :=
  c3_per_feature_errors_contained _ 1 _ (by decide)

/-- C4: the output schema is the source schema with only the
geometry-type slot overwritten to `"MultiLineString"`; the `properties`
field definitions (names, types, order) are copied verbatim. -/
theorem c4_schema_only_geometry_overwritten (s : FionaSchema) :
    (derive_schema s).geometry = "MultiLineString" ∧
    (derive_schema s).properties = s.properties :=
  ⟨rfl, rfl⟩

/-- C5: driver resolution returns the FIRST driver, in registry
enumeration order, whose canonical `DMD_EXTENSION` field (missing field
read as `""`) exactly equals the path's stripped extension,
case-sensitively, or whose `DMD_EXTENSIONS` field (missing field read as
`""`) contains the extension as a substring. -/
theorem c5_first_matching_driver (registry l₁ l₂ : List Driver)
    (d : Driver) (filepath : String) (hreg : registry = l₁ ++ d :: l₂)
    (hfirst : ∀ d' ∈ l₁,
      (pathExtension filepath == d'.dmdExtension.getD ""
        || strContains (d'.dmdExtensions.getD "") (pathExtension filepath))
        = false)
    (hmatch : (pathExtension filepath == d.dmdExtension.getD ""
        || strContains (d.dmdExtensions.getD "") (pathExtension filepath))
        = true) :
    get_ogr_driver registry filepath = .ok d := by
  subst hreg
  have h1 : ∀ d' ∈ l₁, driverMatches (pathExtension filepath) d' = false :=
    fun d' hd' => hfirst d' hd'
  simp [get_ogr_driver, find?_first_of_prefix_false _ _ _ _ h1 hmatch]

/-- C5 witness: with extension `shp`, a non-matching GML driver is
skipped and the shapefile driver is returned even though a later driver
would also match. -/
theorem c5_witness :
    get_ogr_driver
      [{ name := "GML", dmdExtension := some "gml",
         dmdExtensions := some "gml xml" },
       { name := "ESRI Shapefile", dmdExtension := some "shp",
         dmdExtensions := some "shp" },
       { name := "Other", dmdExtension := some "shp",
         dmdExtensions := none }]
      "out.shp" = .ok
      { name := "ESRI Shapefile", dmdExtension := some "shp",
        dmdExtensions := some "shp" } :=
  c5_first_matching_driver _
    [{ name := "GML", dmdExtension := some "gml",
       dmdExtensions := some "gml xml" }]
    [{ name := "Other", dmdExtension := some "shp", dmdExtensions := none }]
    _ "out.shp" rfl (by decide) (by decide)

/-- C6: with the driver resolved and every record free of keyword
collisions, the destination's written records are exactly the successful
conversions of the source records, produced by one `filterMap` pass in
source order — same relative order, no reordering, no buffering, no
deduplication. -/
theorem c6_feature_order_preserved {G V : Type} (registry : List Driver)
    (algo : CLAlgo G V) (source_file : SourceDataset G V) (dst : String)
    (density : Rat) (drv : Driver)
    (hd : get_ogr_driver registry dst = .ok drv)
    (h : ∀ r ∈ source_file.records, kwargCollision r.properties = none) :
    (create_centerlines registry algo source_file dst density).dest.map
        Prod.snd =
      some (source_file.records.filterMap
        (fun r => (processRecord algo density r).toOption)) := by
  simp [create_centerlines, hd,
    convertLoop_characterization algo density source_file.records h]

/-- C6 witness: of three records the middle one fails; the two
successes appear in source order. -/
theorem c6_witness :
    (create_centerlines
      [{ name := "ESRI Shapefile", dmdExtension := some "shp",
         dmdExtensions := some "shp" }]
      (fun (g : Nat) (_ : Rat) (attrs : List (String × Nat)) =>
        if g = 1 then Except.error (.invalidInputType "input geometry is not of type Polygon")
        else Except.ok ⟨g, attrs⟩)
      { schema := { geometry := "Polygon", properties := [("id", "int")] },
        crs := "EPSG:4326", encoding := "utf-8",
        records := [{ geometry := 0, properties := [("id", 1)] },
                    { geometry := 1, properties := [("id", 2)] },
                    { geometry := 2, properties := [("id", 3)] }] }
      "out.shp" 1).dest.map Prod.snd =
      some ([{ geometry := 0, properties := [("id", 1)] },
             { geometry := 1, properties := [("id", 2)] },
             { geometry := 2, properties := [("id", 3)] }].filterMap
        (fun (r : Record Nat Nat) => (processRecord
          (fun (g : Nat) (_ : Rat) (attrs : List (String × Nat)) =>
            if g = 1 then Except.error (.invalidInputType "input geometry is not of type Polygon")
            else Except.ok ⟨g, attrs⟩) 1 r).toOption)) :=
  c6_feature_order_preserved _ _ _ _ _
    { name := "ESRI Shapefile", dmdExtension := some "shp",
      dmdExtensions := some "shp" }
    rfl (by decide)

/-- C7: when driver resolution succeeds, the destination dataset is
opened exactly once — the run trace holds a single destination — and its
configuration is the derived schema, the resolved driver's name, and the
source dataset's coordinate reference system and text encoding copied
verbatim. -/
theorem c7_destination_opened_once_with_config {G V : Type}
    (registry : List Driver) (algo : CLAlgo G V)
    (source_file : SourceDataset G V) (dst : String) (density : Rat)
    (drv : Driver) (hd : get_ogr_driver registry dst = .ok drv) :
    (create_centerlines registry algo source_file dst density).dest =
      some ({ driver := drv.name,
              schema := derive_schema source_file.schema,
              crs := source_file.crs,
              encoding := source_file.encoding },
            (convertLoop algo density source_file.records).written) := by
  simp [create_centerlines, hd]

/-- C7 witness: the destination is opened with the multi-linestring
schema, the resolved driver's name, and the source's crs and encoding. -/
theorem c7_witness :
    (create_centerlines
      [{ name := "ESRI Shapefile", dmdExtension := some "shp",
         dmdExtensions := some "shp" }]
      (fun (g : Nat) (_ : Rat) (attrs : List (String × Nat)) =>
        Except.ok ⟨g, attrs⟩)
      { schema := { geometry := "Polygon", properties := [("id", "int")] },
        crs := "EPSG:32633", encoding := "utf-8",
        records := [{ geometry := 4, properties := [("id", 1)] }] }
      "out.shp" 1).dest =
      some ({ driver := "ESRI Shapefile",
              schema := derive_schema
                { geometry := "Polygon", properties := [("id", "int")] },
              crs := "EPSG:32633", encoding := "utf-8" },
            (convertLoop
              (fun (g : Nat) (_ : Rat) (attrs : List (String × Nat)) =>
                Except.ok ⟨g, attrs⟩)
              1 [{ geometry := 4, properties := [("id", 1)] }]).written) :=
  c7_destination_opened_once_with_config _ _ _ _ _
    { name := "ESRI Shapefile", dmdExtension := some "shp",
      dmdExtensions := some "shp" }
    rfl

/-- C8: driver resolution is deterministic — two calls with the same
destination path against the same (unchanged) registry return the same
result; the embedding is a pure lookup, faithful to the source, which
only reads driver metadata and never mutates the registry. -/
theorem c8_resolver_deterministic (registry : List Driver)
    (p₁ p₂ : String) (h : p₁ = p₂) :
    get_ogr_driver registry p₁ = get_ogr_driver registry p₂ := by
  rw [h]

/-- C8 witness: two calls on `out.shp` against the same registry agree. -/
theorem c8_witness :
    get_ogr_driver
      [{ name := "ESRI Shapefile", dmdExtension := some "shp",
         dmdExtensions := some "shp" }] "out.shp" =
    get_ogr_driver
      [{ name := "ESRI Shapefile", dmdExtension := some "shp",
         dmdExtensions := some "shp" }] "out.shp" :=
  c8_resolver_deterministic _ "out.shp" "out.shp" rfl

/-- C9: for a destination path whose stripped extension is empty (no dot
in the basename, or a bare trailing dot), the first driver of a
non-empty registry matches — the empty extension is a substring of every
`DMD_EXTENSIONS` string, including the `""` substituted for a missing
field — so resolution returns the first driver and never raises. -/
theorem c9_empty_extension_returns_first_driver (registry : List Driver)
    (filepath : String) (d : Driver)
    (hext : pathExtension filepath = "")
    (hhead : registry.head? = some d) :
    driverMatches (pathExtension filepath) d = true ∧
    get_ogr_driver registry filepath = .ok d := by
  cases registry with
  | nil => simp at hhead
  | cons a rest =>
    have ha : a = d := by simpa using hhead
    subst ha
    refine ⟨by rw [hext]; exact driverMatches_empty a, ?_⟩
    simp [get_ogr_driver, List.find?, hext, driverMatches_empty]

/-- C9 witness: the extension-less path `output` matches the very first
driver even though that driver has no extension metadata at all. -/
theorem c9_witness :
    driverMatches (pathExtension "output")
      { name := "First", dmdExtension := none, dmdExtensions := none }
      = true ∧
    get_ogr_driver
      [{ name := "First", dmdExtension := none, dmdExtensions := none },
       { name := "ESRI Shapefile", dmdExtension := some "shp",
         dmdExtensions := some "shp" }] "output" = .ok
      { name := "First", dmdExtension := none, dmdExtensions := none } :=
  c9_empty_extension_returns_first_driver _ "output" _ (by decide) rfl

/-- C10: a feature whose properties contain a key named `input_geom` or
`interpolation_dist` makes the keyword expansion of the `Centerline`
call raise a duplicate-argument `TypeError`, which is not one of the two
caught error kinds: the loop aborts immediately — nothing written for
that feature or any later one, no warning logged for it — and the
whole run ends with that `TypeError`. -/
theorem c10_kwarg_collision_aborts_run {G V : Type}
    (registry : List Driver) (algo : CLAlgo G V)
    (source_file : SourceDataset G V) (dst : String) (density : Rat)
    (record : Record G V) (rest : List (Record G V)) (k : String)
    (drv : Driver) (hk : kwargCollision record.properties = some k)
    (hrecs : source_file.records = record :: rest)
    (hd : get_ogr_driver registry dst = .ok drv) :
    convertLoop algo density (record :: rest) =
      { written := [], warnings := [],
        aborted := some (.typeError
          ("got multiple values for keyword argument " ++ k)) } ∧
    (create_centerlines registry algo source_file dst density).error =
      some (.typeError ("got multiple values for keyword argument " ++ k)) := by
  have hloop : convertLoop algo density (record :: rest) =
      { written := [], warnings := [],
        aborted := some (.typeError
          ("got multiple values for keyword argument " ++ k)) } := by
    simp [convertLoop, processRecord, callCenterline, hk]
  exact ⟨hloop, by simp [create_centerlines, hd, hrecs, hloop]⟩

/-- C10 witness: a record carrying a property literally named
`input_geom` aborts the run with the duplicate-argument `TypeError`,
even though the algorithm itself would have succeeded and a second
record was still pending. -/
theorem c10_witness :
    convertLoop
      (fun (g : Nat) (_ : Rat) (attrs : List (String × Nat)) =>
        Except.ok ⟨g, attrs⟩)
      1 [{ geometry := 0, properties := [("input_geom", 9)] },
         { geometry := 1, properties := [("id", 2)] }] =
      { written := [], warnings := [],
        aborted := some (.typeError
          ("got multiple values for keyword argument " ++ "input_geom")) } ∧
    (create_centerlines
      [{ name := "ESRI Shapefile", dmdExtension := some "shp",
         dmdExtensions := some "shp" }]
      (fun (g : Nat) (_ : Rat) (attrs : List (String × Nat)) =>
        Except.ok ⟨g, attrs⟩)
      { schema := { geometry := "Polygon", properties := [("id", "int")] },
        crs := "EPSG:4326", encoding := "utf-8",
        records := [{ geometry := 0, properties := [("input_geom", 9)] },
                    { geometry := 1, properties := [("id", 2)] }] }
      "out.shp" 1).error =
      some (.typeError
        ("got multiple values for keyword argument " ++ "input_geom")) :=
  c10_kwarg_collision_aborts_run _ _ _ _ _
    { geometry := 0, properties := [("input_geom", 9)] }
    [{ geometry := 1, properties := [("id", 2)] }] "input_geom"
    { name := "ESRI Shapefile", dmdExtension := some "shp",
      dmdExtensions := some "shp" }
    (by decide) rfl rfl

end CenterlineSpec
